import Mathlib

/-!
Verification development for the spreadsheet-driven EPICS device-database
compilers `excel2db4Modbus.py` and `excel2db4StreamDevice.py`.

Python cell values (as delivered by the spreadsheet reader) are modelled by
the type `Cell`; Python truthiness, `isinstance(_, int)` and f-string
rendering are modelled by `Cell.truthy`, `Cell.isInt` and `Cell.pyStr`.
Fallible code paths (`exit(1)` sites and Python runtime exceptions) are
modelled with `Except`.
-/

/-- A spreadsheet cell value as seen by the Python scripts: `None`, an
integer, or a string. -/
inductive Cell where
  | vNone : Cell
  | vInt : Int → Cell
  | vStr : String → Cell
deriving DecidableEq, Repr

/-- Python truthiness of a cell value. -/
def Cell.truthy : Cell → Bool
  | .vNone => false
  | .vInt n => n != 0
  | .vStr s => s != ""

/-- Python `isinstance(x, int)`. -/
def Cell.isInt : Cell → Bool
  | .vInt _ => true
  | _ => false

/-- Python `f'{x}'` / `str(x)` rendering of a cell value. -/
def Cell.pyStr : Cell → String
  | .vNone => "None"
  | .vInt n => toString n
  | .vStr s => s

/-- Python `math.ceil(d / 2)` for an integer `d` (true mathematical ceiling
of the real quotient, as `math.ceil` computes on the float `d / 2`). -/
def pyCeilHalf (d : Int) : Int := -((-d).fdiv 2)

/-- The string-typed optional fields of a `ModbusRecord` are defaulted to
`''` when falsy (source lines 136-145); a truthy non-string value would make
the later `+` concatenation raise `TypeError`, modelled by `none`. -/
def strOrDefault : Cell → Option String
  | .vNone => some ""
  | .vInt n => if n = 0 then some "" else none
  | .vStr s => some s

/-- Python `str.lower()` on the (ASCII) cell values the scripts compare,
as a list-level map so that it reduces during kernel evaluation. -/
def pyLower (s : String) : String := String.mk (s.data.map Char.toLower)

namespace Modbus

/-- `drvUser2DTYP` dictionary of `excel2db4Modbus.py` (lines 7-19). -/
def drvUser2DTYP : String → Option String
  | "BCD" => some "asynInt32"
  | "UINT16" => some "asynUInt32Digital"
  | "INT16" => some "asynInt32"
  | "UINT32" => some "asynInt32"
  | "INT32" => some "asynInt32"
  | "UINT64" => some "asynInt64"
  | "INT64" => some "asynInt64"
  | "FLOAT32" => some "asynFloat64"
  | "FLOAT64" => some "asynFloat64"
  | "STRING" => some "asynInt32"
  | "ZSTRING" => some "asynInt32"
  | _ => none

/-- `SupportedDataFormat` dictionary (lines 21-33): base type mapped to its
allowed suffixes. -/
def SupportedDataFormat : List (String × List String) :=
  [("BCD", ["_UNSIGNED", "_SIGNED"]),
   ("INT16", ["", "SM"]),
   ("UINT16", [""]),
   ("INT32", ["_LE", "_LE_BS", "_BE", "_BE_BS"]),
   ("UINT32", ["_LE", "_LE_BS", "_BE", "_BE_BS"]),
   ("INT64", ["_LE", "_LE_BS", "_BE", "_BE_BS"]),
   ("UINT64", ["_LE", "_LE_BS", "_BE", "_BE_BS"]),
   ("FLOAT32", ["_LE", "_LE_BS", "_BE", "_BE_BS"]),
   ("FLOAT64", ["_LE", "_LE_BS", "_BE", "_BE_BS"]),
   ("STRING", ["_HIGH", "_LOW", "_HIGH_LOW", "_LOW_HIGH"]),
   ("ZSTRING", ["_HIGH", "_LOW", "_HIGH_LOW", "_LOW_HIGH"])]

/-- `SupportedDataFormatList` (lines 34-37): the flattened whitelist of
`type + suffix` concatenations. -/
def SupportedDataFormatList : List String :=
  SupportedDataFormat.foldl
    (fun acc kv => acc ++ kv.2.map (fun suffix => kv.1 ++ suffix)) []

/-- A `ModbusRecord` as it stands after the row interpreter
(`handle_excel_list`) and before `gen_prepare` (source lines 98-121).
The field `namePre` models `name_prefix` and `drvUserPre`/`drvUserSuf`
model `drvUser_prefix`/`drvUser_suffix`. -/
structure ModbusRecord where
  line_number : Nat
  name : String
  namePre : String
  name_seperator : String
  scan : Cell
  desc : Cell
  prec : Cell
  egu : Cell
  other_fields : List Cell
  device : Cell
  slave_id : Cell
  memory_address : Cell
  memory_offset : Cell
  data_length : Cell
  device_access : Cell
  drvUserPre : Cell
  drvUserSuf : Cell
  modbus_funcode : Option Cell
  memory_address_mask : Cell
deriving DecidableEq, Repr

/-- Each `exit(1)` site of the Modbus script, plus the Python runtime
exceptions the script can raise, as a typed error. Configuration errors
carry the 1-based row number printed in their message. -/
inductive ConfigError where
  /-- Line 147-149: no device configured. -/
  | noDevice (line : Nat)
  /-- Line 150-152: slave id falsy and not an int. -/
  | badSlaveId (line : Nat)
  /-- Line 156-158: memory offset falsy and not an int. -/
  | badOffset (line : Nat)
  /-- Line 159-161: data length falsy or not an int. -/
  | badDataLength (line : Nat)
  /-- Line 162-164: device access not `r`/`w`. -/
  | badAccess (line : Nat)
  /-- Lines 165-167 and 214-216: explicit function code outside
  `(1,2,3,4,5,6,15,16)`. Both sites reject the function code with a fatal
  configuration error carrying the row number. -/
  | unsupportedFuncode (line : Nat)
  /-- Line 169-171: concatenated data-encoding tag not whitelisted. -/
  | badDataFormat (line : Nat)
  /-- Lines 187-189, 193-195, 199-201, 207-209: access mode does not match
  the explicit function code's family. -/
  | accessFuncodeMismatch (line : Nat)
  /-- Row interpreter, line 349-351: device address falsy. -/
  | noDeviceAddress (line : Nat)
  /-- Row interpreter, line 362-365: memory address falsy or not an int. -/
  | noMemoryAddress (line : Nat)
  /-- Row interpreter, line 368-371: offset cell not an int. -/
  | badOffsetCell (line : Nat)
  /-- Row interpreter, line 375-377: lowercased access cell not in
  `('r','w','rw')`. -/
  | badAccessCell (line : Nat)
  /-- Row interpreter, line 380-383: data length cell not an int or `<= 0`. -/
  | badDataLenCell (line : Nat)
  /-- Row interpreter, line 386-389: PV name prefix falsy. -/
  | noNamePre (line : Nat)
  /-- Row interpreter, line 392-395: PV name suffix falsy. -/
  | noNameSuf (line : Nat)
  /-- Row interpreter, line 406-409: data type falsy. -/
  | noDataType (line : Nat)
  /-- A Python `TypeError` (e.g. string concatenation or arithmetic on a
  non-int operand); aborts the run with a traceback. -/
  | pythonTypeError (line : Nat)
  /-- A Python `AttributeError` (e.g. `.lower()` on `None` or on an int);
  aborts the run with a traceback that carries no row number. -/
  | pythonAttrError
  /-- A Python `KeyError` (e.g. `drvUser2DTYP` lookup miss). -/
  | pythonKeyError (line : Nat)
deriving DecidableEq, Repr

/-- A `ModbusRecord` after `gen_prepare` succeeded: the inferred fields
(`type`, `modbus_funcode`, `memory_length`, `interface_name`, mask) are
filled in and the numeric fields are known to be integers. `rtype` models
the Python attribute `type`. -/
structure Prepared where
  line_number : Nat
  name : String
  namePre : String
  name_seperator : String
  scan : Cell
  desc : Cell
  prec : Cell
  egu : Cell
  other_fields : List Cell
  device : Cell
  slave_id : Cell
  memory_address : Cell
  memory_offset : Int
  data_length : Int
  memory_length : Int
  device_access : Cell
  drvUserPre : String
  drvUserSuf : String
  modbus_funcode : Int
  rtype : String
  interface_name : String
  memory_address_mask : Cell
deriving DecidableEq, Repr

/-- The integer held by a cell (only used on cells known to be `vInt`). -/
def cellAsInt : Cell → Int
  | .vInt n => n
  | _ => 0

/-- The membership test of line 169: Python's
`prefix + suffix in SupportedDataFormatList`. -/
def formatSupported (pre suf : String) : Bool :=
  decide ((pre ++ suf) ∈ SupportedDataFormatList)

/-- The pre-check of line 165: the explicit function code is present and not
one of the eight supported codes. A stored `None` cell is treated as absent
(`is not None` fails), matching the unconditional assignment at line 360. -/
def funcodeInvalid : Option Cell → Bool
  | none => false
  | some c =>
      decide (c ∉ [Cell.vInt 1, Cell.vInt 2, Cell.vInt 3, Cell.vInt 4,
                   Cell.vInt 5, Cell.vInt 6, Cell.vInt 15, Cell.vInt 16])

/-- Tail of `gen_prepare` (lines 217-224): given the inferred function code,
record type and mask, compute the driver memory span and the interface name
and assemble the completed record. The span is `offset + data_length` for
bit codes 1,2,5,15 and `offset + ceil(data_length / 2)` for register codes
(line 218-222). The interface name renders the tuple
`(device, slave_id, memory_address, funcode)` (line 224). Reaching this
point with a non-int offset would raise `TypeError` on the `+`. -/
def finishPrepare (r : ModbusRecord) (pre suf : String) (fc : Int)
    (rtype : String) (mask : Cell) : Except ConfigError Prepared :=
  match r.memory_offset, r.data_length with
  | Cell.vInt o, Cell.vInt l =>
      let mlen : Int :=
        if fc = 1 ∨ fc = 2 ∨ fc = 5 ∨ fc = 15 then o + l else o + pyCeilHalf l
      Except.ok
        { line_number := r.line_number
          name := r.name
          namePre := r.namePre
          name_seperator := r.name_seperator
          scan := r.scan
          desc := r.desc
          prec := r.prec
          egu := r.egu
          other_fields := r.other_fields
          device := r.device
          slave_id := r.slave_id
          memory_address := r.memory_address
          memory_offset := o
          data_length := l
          memory_length := mlen
          device_access := r.device_access
          drvUserPre := pre
          drvUserSuf := suf
          modbus_funcode := fc
          rtype := rtype
          interface_name :=
            r.device.pyStr ++ "_" ++ r.slave_id.pyStr ++ "_Addr" ++
              r.memory_address.pyStr ++ "_FC" ++ toString fc
          memory_address_mask := mask }
  | _, _ => Except.error (ConfigError.pythonTypeError r.line_number)

/-- The data-format check (line 169-171) and the record-kind /
function-code inference table (lines 173-216) of `gen_prepare`, followed by
the span and interface-name derivation via `finishPrepare`. -/
def inferTail (r : ModbusRecord) (pre suf : String) :
    Except ConfigError Prepared :=
  if ¬ formatSupported pre suf then
    Except.error (ConfigError.badDataFormat r.line_number)
  else
    match r.modbus_funcode with
    | none =>
        if r.device_access = Cell.vStr "r" then
          finishPrepare r pre suf 3
            (if r.memory_address_mask.truthy then "bi" else "ai")
            r.memory_address_mask
        else
          finishPrepare r pre suf 16
            (if r.memory_address_mask.truthy then "bo" else "ao")
            r.memory_address_mask
    | some c =>
        if c = Cell.vInt 1 ∨ c = Cell.vInt 2 then
          if ¬ r.device_access = Cell.vStr "r" then
            Except.error (ConfigError.accessFuncodeMismatch r.line_number)
          else
            finishPrepare r pre suf (cellAsInt c) "bi" (Cell.vStr "0x1")
        else if c = Cell.vInt 5 ∨ c = Cell.vInt 15 then
          if ¬ r.device_access = Cell.vStr "w" then
            Except.error (ConfigError.accessFuncodeMismatch r.line_number)
          else
            finishPrepare r pre suf (cellAsInt c) "bo" (Cell.vStr "0x1")
        else if c = Cell.vInt 3 ∨ c = Cell.vInt 4 then
          if ¬ r.device_access = Cell.vStr "r" then
            Except.error (ConfigError.accessFuncodeMismatch r.line_number)
          else
            finishPrepare r pre suf (cellAsInt c)
              (if r.memory_address_mask.truthy then "bi" else "ai")
              r.memory_address_mask
        else if c = Cell.vInt 6 ∨ c = Cell.vInt 16 then
          if ¬ r.device_access = Cell.vStr "w" then
            Except.error (ConfigError.accessFuncodeMismatch r.line_number)
          else
            finishPrepare r pre suf (cellAsInt c)
              (if r.memory_address_mask.truthy then "bo" else "ao")
              r.memory_address_mask
        else
          Except.error (ConfigError.unsupportedFuncode r.line_number)

/-- `ModbusRecord.gen_prepare` (source lines 134-224): required-field
checks, the function-code validity pre-check, then defaulting of the
encoding fields and the inference tail (`inferTail`). -/
def gen_prepare (r : ModbusRecord) : Except ConfigError Prepared :=
  if ¬ r.device.truthy then
    Except.error (ConfigError.noDevice r.line_number)
  else if ¬ r.slave_id.truthy ∧ ¬ r.slave_id.isInt then
    Except.error (ConfigError.badSlaveId r.line_number)
  else if ¬ r.memory_offset.truthy ∧ ¬ r.memory_offset.isInt then
    Except.error (ConfigError.badOffset r.line_number)
  else if ¬ r.data_length.truthy ∨ ¬ r.data_length.isInt then
    Except.error (ConfigError.badDataLength r.line_number)
  else if ¬ (r.device_access = Cell.vStr "r" ∨ r.device_access = Cell.vStr "w") then
    Except.error (ConfigError.badAccess r.line_number)
  else if funcodeInvalid r.modbus_funcode then
    Except.error (ConfigError.unsupportedFuncode r.line_number)
  else
    match strOrDefault r.drvUserPre, strOrDefault r.drvUserSuf with
    | some pre, some suf => inferTail r pre suf
    | _, _ => Except.error (ConfigError.pythonTypeError r.line_number)

/-- A registered Modbus driver / Interface (source lines 57-64). -/
structure ModbusDriver where
  name : String
  device : Cell
  slave_id : Cell
  function_code : Int
  memory_address : Cell
  memory_length : Int
deriving DecidableEq, Repr

/-- `ModbusDriver.config_line` (source lines 72-92): the
`drvModbusAsynConfigure` call rendered for this driver. -/
def ModbusDriver.config_line (d : ModbusDriver) : String :=
  "drvModbusAsynConfigure(\"" ++ d.name ++ "\", \"" ++ d.device.pyStr ++
    "\", " ++ d.slave_id.pyStr ++ ", " ++ toString d.function_code ++ ", " ++
    d.memory_address.pyStr ++ ", " ++ toString d.memory_length ++
    ", 0, 100, \"" ++ d.device.pyStr ++ "\")\n"

/-- The global `DriverRegistered` dict, modelled as an insertion-ordered
association list (Python dicts preserve insertion order). -/
abbrev DriverReg := List (String × ModbusDriver)

/-- Dict lookup on the driver registry. -/
def regLookup (reg : DriverReg) (k : String) : Option ModbusDriver :=
  match reg with
  | [] => none
  | kd :: rest => if kd.1 = k then some kd.2 else regLookup rest k

/-- Replace the `memory_length` stored under key `k`. -/
def regSetLength (reg : DriverReg) (k : String) (len : Int) : DriverReg :=
  reg.map (fun kd => if kd.1 = k then (kd.1, { kd.2 with memory_length := len }) else kd)

/-- The driver built from a completed record when its interface key is new
(source lines 227-235). -/
def driverOfPrepared (p : Prepared) : ModbusDriver :=
  { name := p.interface_name
    device := p.device
    slave_id := p.slave_id
    function_code := p.modbus_funcode
    memory_address := p.memory_address
    memory_length := p.memory_length }

/-- `ModbusRecord.gen_config_line` (source lines 226-239): register the
record's interface in `DriverRegistered`, growing the stored length when the
new record's span exceeds it, and return the (possibly updated) registry
together with the interface's configuration line. -/
def gen_config_line (reg : DriverReg) (p : Prepared) : DriverReg × String :=
  match regLookup reg p.interface_name with
  | none =>
      let d := driverOfPrepared p
      (reg ++ [(p.interface_name, d)], d.config_line)
  | some d0 =>
      if p.memory_length > d0.memory_length then
        let reg2 := regSetLength reg p.interface_name p.memory_length
        (reg2, ({ d0 with memory_length := p.memory_length }).config_line)
      else
        (reg, d0.config_line)

/-- The registry after `gen_config_line` (its side effect alone). -/
def registerDriver (reg : DriverReg) (p : Prepared) : DriverReg :=
  (gen_config_line reg p).1

/-- The `drvModbusAsynConfigure` lines the `__main__` renderer emits for one
device (source lines 481-483): one line per registered driver whose `device`
equals the device being rendered. -/
def cmdLinesForDevice (reg : DriverReg) (dev : Cell) : List String :=
  (reg.filter (fun kd => decide (kd.2.device = dev))).map
    (fun kd => kd.2.config_line)

/-- `ModbusRecord.gen_db_lines` (source lines 241-288) on a completed
record, as the list of emitted lines. The `drvUser2DTYP` lookup misses for
a prefix outside the dict (Python `KeyError`). In the unreachable fallback
branch of the INP/OUT dispatch (source lines 261-263) Python appends the
stale `line` variable, which still holds the DTYP line. -/
def gen_db_lines (p : Prepared) : Except ConfigError (List String) :=
  match drvUser2DTYP p.drvUserPre with
  | none => Except.error (ConfigError.pythonKeyError p.line_number)
  | some dtyp =>
      let dtypLine := "\tfield(DTYP, \"" ++ dtyp ++ "\")\n"
      let ioLine :=
        if p.device_access = Cell.vStr "r" ∧ p.rtype.data.contains 'a' then
          "\tfield(INP, \"@asyn(" ++ p.interface_name ++ " " ++
            toString p.memory_offset ++ ")" ++ p.drvUserPre ++ p.drvUserSuf ++ "\")\n"
        else if p.device_access = Cell.vStr "r" ∧ p.rtype.data.contains 'b' then
          "\tfield(INP, \"@asynMask(" ++ p.interface_name ++ " " ++
            toString p.memory_offset ++ " " ++ p.memory_address_mask.pyStr ++ ")" ++
            p.drvUserPre ++ p.drvUserSuf ++ "\")\n"
        else if p.device_access = Cell.vStr "w" ∧ p.rtype.data.contains 'a' then
          "\tfield(OUT, \"@asyn(" ++ p.interface_name ++ " " ++
            toString p.memory_offset ++ ")" ++ p.drvUserPre ++ p.drvUserSuf ++ "\")\n"
        else if p.device_access = Cell.vStr "w" ∧ p.rtype.data.contains 'b' then
          "\tfield(OUT, \"@asynMask(" ++ p.interface_name ++ " " ++
            toString p.memory_offset ++ " " ++ p.memory_address_mask.pyStr ++ ")" ++
            p.drvUserPre ++ p.drvUserSuf ++ "\")\n"
        else
          dtypLine
      Except.ok
        (["record(" ++ p.rtype ++ ", \"" ++ p.namePre ++ p.name_seperator ++
            p.name ++ "\")\x7b\n",
          dtypLine, ioLine] ++
         (if p.scan.truthy then ["\tfield(SCAN, \"" ++ p.scan.pyStr ++ "\")\n"] else []) ++
         (if p.desc.truthy then ["\tfield(DESC, \"" ++ p.desc.pyStr ++ "\")\n"] else []) ++
         (if p.prec.truthy then ["\tfield(PREC, \"" ++ p.prec.pyStr ++ "\")\n"] else []) ++
         (if p.egu.truthy then ["\tfield(EGU, \"" ++ p.egu.pyStr ++ "\")\n"] else []) ++
         (p.other_fields.filter (fun c => c.truthy)).map
           (fun c => "\tfield(" ++ c.pyStr ++ ")\n") ++
         ["\x7d\n"])

/-- `formatSupported` decides membership in the whitelist. -/
theorem formatSupported_iff (pre suf : String) :
    formatSupported pre suf = true ↔ (pre ++ suf) ∈ SupportedDataFormatList := by
  simp [formatSupported]

/-- Characterization of a successful `finishPrepare`: the numeric cells were
integers and every derived field is determined by the inputs; in particular
the memory span follows the bit-code / register-code formula. -/
theorem finishPrepare_ok {r : ModbusRecord} {pre suf : String} {fc : Int}
    {t : String} {m : Cell} {p : Prepared}
    (h : finishPrepare r pre suf fc t m = Except.ok p) :
    ∃ o l : Int, r.memory_offset = Cell.vInt o ∧ r.data_length = Cell.vInt l ∧
      p.memory_offset = o ∧ p.data_length = l ∧ p.modbus_funcode = fc ∧
      p.rtype = t ∧ p.memory_address_mask = m ∧ p.drvUserPre = pre ∧
      p.drvUserSuf = suf ∧ p.device = r.device ∧ p.slave_id = r.slave_id ∧
      p.memory_address = r.memory_address ∧ p.line_number = r.line_number ∧
      p.device_access = r.device_access ∧
      p.interface_name = r.device.pyStr ++ "_" ++ r.slave_id.pyStr ++
        "_Addr" ++ r.memory_address.pyStr ++ "_FC" ++ toString fc ∧
      p.memory_length =
        (if fc = 1 ∨ fc = 2 ∨ fc = 5 ∨ fc = 15 then
          p.memory_offset + p.data_length
         else p.memory_offset + pyCeilHalf p.data_length) := by
  unfold finishPrepare at h
  split at h
  next o l ho hl =>
    refine ⟨o, l, ho, hl, ?_⟩
    injection h with h
    subst h
    simp
  next => exact absurd h (by simp)

/-- `finishPrepare` can only fail with a Python `TypeError`. -/
theorem finishPrepare_error_typeError {r : ModbusRecord} {pre suf : String}
    {fc : Int} {t : String} {m : Cell} {e : ConfigError}
    (h : finishPrepare r pre suf fc t m = Except.error e) :
    e = ConfigError.pythonTypeError r.line_number := by
  unfold finishPrepare at h
  split at h <;> simp_all

/-- Every successful run of `inferTail` goes through `finishPrepare`. -/
theorem inferTail_ok {r : ModbusRecord} {pre suf : String} {p : Prepared}
    (h : inferTail r pre suf = Except.ok p) :
    ∃ fc t m, finishPrepare r pre suf fc t m = Except.ok p := by
  unfold inferTail at h
  repeat' split at h
  all_goals try (cases h)
  all_goals exact ⟨_, _, _, h⟩

/-- An `inferTail` failure with the data-format error implies the format
was rejected by the whitelist. -/
theorem inferTail_badDataFormat {r : ModbusRecord} {pre suf : String} {l : Nat}
    (h : inferTail r pre suf = Except.error (ConfigError.badDataFormat l)) :
    formatSupported pre suf = false := by
  by_cases hs : formatSupported pre suf = false
  · exact hs
  exfalso
  rw [Bool.not_eq_false] at hs
  unfold inferTail at h
  rw [if_neg (by simp [hs])] at h
  repeat' split at h
  all_goals try (cases h)
  all_goals
    have hE := finishPrepare_error_typeError h
    exact ConfigError.noConfusion hE

/-- Every successful run of `gen_prepare` goes through `finishPrepare`. -/
theorem gen_prepare_ok {r : ModbusRecord} {p : Prepared}
    (h : gen_prepare r = Except.ok p) :
    ∃ pre suf fc t m, finishPrepare r pre suf fc t m = Except.ok p := by
  unfold gen_prepare at h
  repeat' split at h
  all_goals try (cases h)
  all_goals
    obtain ⟨fc, t, m, hf⟩ := inferTail_ok h
    exact ⟨_, _, fc, t, m, hf⟩

/-- C2: for every record that `gen_prepare` accepts, the derived driver
memory span equals `offset + data_length` when the function code is in
`{1,2,5,15}` and `offset + ceil(data_length / 2)` when it is in
`{3,4,6,16}`. -/
theorem c2_span_formula (r : ModbusRecord) (p : Prepared) (o l : Int)
    (ho : r.memory_offset = Cell.vInt o) (hl : r.data_length = Cell.vInt l)
    (h : gen_prepare r = Except.ok p) :
    (p.modbus_funcode = 1 ∨ p.modbus_funcode = 2 ∨ p.modbus_funcode = 5 ∨
        p.modbus_funcode = 15 → p.memory_length = o + l) ∧
    (p.modbus_funcode = 3 ∨ p.modbus_funcode = 4 ∨ p.modbus_funcode = 6 ∨
        p.modbus_funcode = 16 → p.memory_length = o + pyCeilHalf l) := by
  obtain ⟨pre, suf, fc, t, m, hf⟩ := gen_prepare_ok h
  obtain ⟨o2, l2, ho2, hl2, hpo, hpl, hpfc, -, -, -, -, -, -, -, -, -, -, hml⟩ :=
    finishPrepare_ok hf
  rw [ho] at ho2
  rw [hl] at hl2
  injection ho2 with ho2
  injection hl2 with hl2
  subst ho2
  subst hl2
  subst hpfc
  constructor
  · intro hc
    rw [hml, if_pos hc, hpo, hpl]
  · intro hc
    have hnc : ¬ (p.modbus_funcode = 1 ∨ p.modbus_funcode = 2 ∨
        p.modbus_funcode = 5 ∨ p.modbus_funcode = 15) := by
      rcases hc with h1 | h1 | h1 | h1 <;> omega
    rw [hml, if_neg hnc, hpo, hpl]

/-- The concrete record of the C3 round-trip scenario: device `PLC1`,
slave 1, base address 100, offset 0, data length 4, access `r`, no explicit
function code, no mask, encoding `FLOAT32` + `_LE`. -/
def c3rec : ModbusRecord :=
  { line_number := 2
    name := "Temp"
    namePre := "PLC1"
    name_seperator := ":"
    scan := Cell.vNone
    desc := Cell.vNone
    prec := Cell.vNone
    egu := Cell.vNone
    other_fields := []
    device := Cell.vStr "PLC1"
    slave_id := Cell.vInt 1
    memory_address := Cell.vInt 100
    memory_offset := Cell.vInt 0
    data_length := Cell.vInt 4
    device_access := Cell.vStr "r"
    drvUserPre := Cell.vStr "FLOAT32"
    drvUserSuf := Cell.vStr "_LE"
    modbus_funcode := none
    memory_address_mask := Cell.vNone }

/-- C3: the round-trip scenario record infers function code 3, record kind
`ai`, the interface key `PLC1_1_Addr100_FC3` (rendering the tuple
`(PLC1, 1, 100, 3)`), a driver span of 2 registers, and a record-database
block whose data-source field is `@asyn(PLC1_1_Addr100_FC3 0)FLOAT32_LE`. -/
theorem c3_roundtrip :
    ∃ p, gen_prepare c3rec = Except.ok p ∧
      p.modbus_funcode = 3 ∧ p.rtype = "ai" ∧
      p.interface_name = "PLC1_1_Addr100_FC3" ∧
      p.memory_length = 2 ∧
      gen_db_lines p = Except.ok
        ["record(ai, \"PLC1:Temp\")\x7b\n",
         "\tfield(DTYP, \"asynFloat64\")\n",
         "\tfield(INP, \"@asyn(PLC1_1_Addr100_FC3 0)FLOAT32_LE\")\n",
         "\x7d\n"] := by
  exact ⟨_, rfl, rfl, rfl, rfl, rfl, rfl⟩

/-- C5: with the earlier required-field checks passing, a concatenated
data-encoding tag outside the whitelist makes `gen_prepare` fail with the
configuration error that reports the row number; and no record whose tag is
whitelisted ever fails with that error. -/
theorem c5_format_whitelist (r : ModbusRecord) (pre suf : String)
    (hdev : r.device.truthy = true)
    (hslave : r.slave_id.truthy = true ∨ r.slave_id.isInt = true)
    (hoff : r.memory_offset.truthy = true ∨ r.memory_offset.isInt = true)
    (hlen : r.data_length.truthy = true ∧ r.data_length.isInt = true)
    (hacc : r.device_access = Cell.vStr "r" ∨ r.device_access = Cell.vStr "w")
    (hfc : funcodeInvalid r.modbus_funcode = false)
    (hpre : strOrDefault r.drvUserPre = some pre)
    (hsuf : strOrDefault r.drvUserSuf = some suf) :
    ((pre ++ suf) ∉ SupportedDataFormatList →
      gen_prepare r = Except.error (ConfigError.badDataFormat r.line_number)) ∧
    (∀ (r2 : ModbusRecord) (pre2 suf2 : String) (l : Nat),
      strOrDefault r2.drvUserPre = some pre2 →
      strOrDefault r2.drvUserSuf = some suf2 →
      (pre2 ++ suf2) ∈ SupportedDataFormatList →
      gen_prepare r2 ≠ Except.error (ConfigError.badDataFormat l)) := by
  have hfmt : ∀ pre2 suf2 : String, (pre2 ++ suf2) ∉ SupportedDataFormatList →
      formatSupported pre2 suf2 = false := by
    intro pre2 suf2 hmem
    rw [← Bool.not_eq_true, formatSupported_iff]
    exact hmem
  constructor
  · intro hmem
    unfold gen_prepare
    rw [if_neg (by simp [hdev])]
    rw [if_neg (by rcases hslave with h | h <;> simp [h])]
    rw [if_neg (by rcases hoff with h | h <;> simp [h])]
    rw [if_neg (by simp [hlen.1, hlen.2])]
    rw [if_neg (by simp [hacc])]
    rw [if_neg (by simp [hfc])]
    simp only [hpre, hsuf]
    unfold inferTail
    rw [if_pos (by simp [hfmt pre suf hmem])]
  · intro r2 pre2 suf2 l hpre2 hsuf2 hmem heq
    have hsup : formatSupported pre2 suf2 = true := by
      rw [formatSupported_iff]
      exact hmem
    unfold gen_prepare at heq
    repeat' split at heq
    all_goals try (cases heq)
    all_goals
      rename_i pre3 suf3 hpre3 hsuf3
      rw [hpre2] at hpre3
      rw [hsuf2] at hsuf3
      injection hpre3 with hpre3
      injection hsuf3 with hsuf3
      subst hpre3
      subst hsuf3
      have hbf := inferTail_badDataFormat heq
      rw [hsup] at hbf
      exact Bool.noConfusion hbf


/-- A cell satisfying `isinstance(_, int)` is an integer cell. -/
theorem isInt_exists {c : Cell} (h : c.isInt = true) : ∃ n : Int, c = Cell.vInt n := by
  cases c with
  | vNone => exact absurd h (by simp [Cell.isInt])
  | vInt n => exact ⟨n, rfl⟩
  | vStr s => exact absurd h (by simp [Cell.isInt])

/-- When all required-field checks pass, `gen_prepare` reduces to the
inference tail. -/
theorem gen_prepare_checks_pass (r : ModbusRecord) (pre suf : String)
    (hdev : r.device.truthy = true)
    (hslave : r.slave_id.truthy = true ∨ r.slave_id.isInt = true)
    (hoff : r.memory_offset.truthy = true ∨ r.memory_offset.isInt = true)
    (hlen : r.data_length.truthy = true ∧ r.data_length.isInt = true)
    (hacc : r.device_access = Cell.vStr "r" ∨ r.device_access = Cell.vStr "w")
    (hfcv : funcodeInvalid r.modbus_funcode = false)
    (hpre : strOrDefault r.drvUserPre = some pre)
    (hsuf : strOrDefault r.drvUserSuf = some suf) :
    gen_prepare r = inferTail r pre suf := by
  unfold gen_prepare
  rw [if_neg (by simp [hdev])]
  rw [if_neg (by rcases hslave with h | h <;> simp [h])]
  rw [if_neg (by rcases hoff with h | h <;> simp [h])]
  rw [if_neg (by simp [hlen.1, hlen.2])]
  rw [if_neg (by simp [hacc])]
  rw [if_neg (by simp [hfcv])]
  simp only [hpre, hsuf]

/-- C4: decision table for explicit function codes, given a record whose
required fields pass the row checks and whose encoding is whitelisted:
a read-family code (1,2,3,4) with access `w`, or a write-family code
(5,6,15,16) with access `r`, is a hard mismatch error; codes 1,2 (access
`r`) give kind `bi` with the mask forced to `0x1`; codes 5,15 (access `w`)
give `bo` with the mask forced to `0x1`; codes 3,4 (access `r`) give `bi`
when a mask is set, else `ai`, leaving the mask unchanged; codes 6,16
(access `w`) give `bo` when a mask is set, else `ao`; any other explicit
code is rejected with the fatal function-code error. -/
theorem c4_funcode_table (r : ModbusRecord) (pre suf : String) (fc : Int)
    (hdev : r.device.truthy = true)
    (hslave : r.slave_id.truthy = true ∨ r.slave_id.isInt = true)
    (hoffInt : r.memory_offset.isInt = true)
    (hlen : r.data_length.truthy = true ∧ r.data_length.isInt = true)
    (hacc : r.device_access = Cell.vStr "r" ∨ r.device_access = Cell.vStr "w")
    (hpre : strOrDefault r.drvUserPre = some pre)
    (hsuf : strOrDefault r.drvUserSuf = some suf)
    (hfmt : formatSupported pre suf = true)
    (hfc : r.modbus_funcode = some (Cell.vInt fc)) :
    ((fc = 1 ∨ fc = 2 ∨ fc = 3 ∨ fc = 4) → r.device_access = Cell.vStr "w" →
      gen_prepare r = Except.error (ConfigError.accessFuncodeMismatch r.line_number)) ∧
    ((fc = 5 ∨ fc = 6 ∨ fc = 15 ∨ fc = 16) → r.device_access = Cell.vStr "r" →
      gen_prepare r = Except.error (ConfigError.accessFuncodeMismatch r.line_number)) ∧
    ((fc = 1 ∨ fc = 2) → r.device_access = Cell.vStr "r" →
      ∃ p, gen_prepare r = Except.ok p ∧ p.rtype = "bi" ∧
        p.memory_address_mask = Cell.vStr "0x1" ∧ p.modbus_funcode = fc) ∧
    ((fc = 5 ∨ fc = 15) → r.device_access = Cell.vStr "w" →
      ∃ p, gen_prepare r = Except.ok p ∧ p.rtype = "bo" ∧
        p.memory_address_mask = Cell.vStr "0x1" ∧ p.modbus_funcode = fc) ∧
    ((fc = 3 ∨ fc = 4) → r.device_access = Cell.vStr "r" →
      ∃ p, gen_prepare r = Except.ok p ∧
        p.rtype = (if r.memory_address_mask.truthy then "bi" else "ai") ∧
        p.memory_address_mask = r.memory_address_mask ∧ p.modbus_funcode = fc) ∧
    ((fc = 6 ∨ fc = 16) → r.device_access = Cell.vStr "w" →
      ∃ p, gen_prepare r = Except.ok p ∧
        p.rtype = (if r.memory_address_mask.truthy then "bo" else "ao") ∧
        p.memory_address_mask = r.memory_address_mask ∧ p.modbus_funcode = fc) ∧
    (fc ≠ 1 ∧ fc ≠ 2 ∧ fc ≠ 3 ∧ fc ≠ 4 ∧ fc ≠ 5 ∧ fc ≠ 6 ∧ fc ≠ 15 ∧ fc ≠ 16 →
      gen_prepare r = Except.error (ConfigError.unsupportedFuncode r.line_number)) := by
  obtain ⟨o, ho⟩ := isInt_exists hoffInt
  obtain ⟨l, hl⟩ := isInt_exists hlen.2
  have hoff : r.memory_offset.truthy = true ∨ r.memory_offset.isInt = true :=
    Or.inr hoffInt
  have hred : ∀ hfcv : funcodeInvalid r.modbus_funcode = false,
      gen_prepare r = inferTail r pre suf := fun hfcv =>
    gen_prepare_checks_pass r pre suf hdev hslave hoff hlen hacc hfcv hpre hsuf
  refine ⟨?_, ?_, ?_, ?_, ?_, ?_, ?_⟩
  · intro hfam haccw
    rw [hred (by rcases hfam with rfl | rfl | rfl | rfl <;> simp [funcodeInvalid, hfc])]
    unfold inferTail
    rw [if_neg (by simp [hfmt])]
    simp only [hfc]
    rcases hfam with rfl | rfl | rfl | rfl <;>
      simp [haccw, finishPrepare]
  · intro hfam haccr
    rw [hred (by rcases hfam with rfl | rfl | rfl | rfl <;> simp [funcodeInvalid, hfc])]
    unfold inferTail
    rw [if_neg (by simp [hfmt])]
    simp only [hfc]
    rcases hfam with rfl | rfl | rfl | rfl <;>
      simp [haccr, finishPrepare]
  · intro hfam haccr
    rw [hred (by rcases hfam with rfl | rfl <;> simp [funcodeInvalid, hfc])]
    unfold inferTail
    rw [if_neg (by simp [hfmt])]
    simp only [hfc]
    rcases hfam with rfl | rfl <;>
      · rw [if_pos (by simp)]
        rw [if_neg (by simp [haccr])]
        unfold finishPrepare
        simp only [ho, hl]
        exact ⟨_, rfl, rfl, rfl, rfl⟩
  · intro hfam haccw
    rw [hred (by rcases hfam with rfl | rfl <;> simp [funcodeInvalid, hfc])]
    unfold inferTail
    rw [if_neg (by simp [hfmt])]
    simp only [hfc]
    rcases hfam with rfl | rfl <;>
      · rw [if_neg (by simp)]
        rw [if_pos (by simp)]
        rw [if_neg (by simp [haccw])]
        unfold finishPrepare
        simp only [ho, hl]
        exact ⟨_, rfl, rfl, rfl, rfl⟩
  · intro hfam haccr
    rw [hred (by rcases hfam with rfl | rfl <;> simp [funcodeInvalid, hfc])]
    unfold inferTail
    rw [if_neg (by simp [hfmt])]
    simp only [hfc]
    rcases hfam with rfl | rfl <;>
      · rw [if_neg (by simp)]
        rw [if_neg (by simp)]
        rw [if_pos (by simp)]
        rw [if_neg (by simp [haccr])]
        unfold finishPrepare
        simp only [ho, hl]
        exact ⟨_, rfl, rfl, rfl, rfl⟩
  · intro hfam haccw
    rw [hred (by rcases hfam with rfl | rfl <;> simp [funcodeInvalid, hfc])]
    unfold inferTail
    rw [if_neg (by simp [hfmt])]
    simp only [hfc]
    rcases hfam with rfl | rfl <;>
      · rw [if_neg (by simp)]
        rw [if_neg (by simp)]
        rw [if_neg (by simp)]
        rw [if_pos (by simp)]
        rw [if_neg (by simp [haccw])]
        unfold finishPrepare
        simp only [ho, hl]
        exact ⟨_, rfl, rfl, rfl, rfl⟩
  · intro hne
    unfold gen_prepare
    rw [if_neg (by simp [hdev])]
    rw [if_neg (by rcases hslave with h | h <;> simp [h])]
    rw [if_neg (by rcases hoff with h | h <;> simp [h])]
    rw [if_neg (by simp [hlen.1, hlen.2])]
    rw [if_neg (by simp [hacc])]
    rw [if_pos (by
      simp only [funcodeInvalid, hfc]
      simp only [List.mem_cons, List.not_mem_nil, or_false, decide_eq_true_eq]
      push_neg
      refine ⟨?_, ?_, ?_, ?_, ?_, ?_, ?_, ?_⟩ <;>
        (intro hx; injection hx with hx; omega))]


/-- Registering into the empty registry creates the record's driver. -/
theorem registerDriver_nil (p : Prepared) :
    registerDriver [] p = [(p.interface_name, driverOfPrepared p)] := rfl

/-- Registering when the key is present either grows the stored length or
leaves the registry unchanged. -/
theorem registerDriver_found {reg : DriverReg} {p : Prepared} {d : ModbusDriver}
    (h : regLookup reg p.interface_name = some d) :
    registerDriver reg p =
      if p.memory_length > d.memory_length then
        regSetLength reg p.interface_name p.memory_length
      else reg := by
  unfold registerDriver gen_config_line
  simp only [h]
  split <;> rfl

/-- Registering a fresh key appends the new driver. -/
theorem registerDriver_not_found {reg : DriverReg} {p : Prepared}
    (h : regLookup reg p.interface_name = none) :
    registerDriver reg p = reg ++ [(p.interface_name, driverOfPrepared p)] := by
  unfold registerDriver gen_config_line
  rw [h]

/-- A lookup that succeeds still succeeds after an append. -/
theorem regLookup_append_left {reg : DriverReg} {k : String} {d : ModbusDriver}
    (tail : DriverReg) (h : regLookup reg k = some d) :
    regLookup (reg ++ tail) k = some d := by
  induction reg with
  | nil => exact absurd h (by simp [regLookup])
  | cons kd rest ih =>
      rw [List.cons_append]
      simp only [regLookup] at h ⊢
      by_cases hk : kd.1 = k
      · rw [if_pos hk] at h ⊢
        exact h
      · rw [if_neg hk] at h ⊢
        exact ih h

/-- How `regSetLength` acts on lookups. -/
theorem regLookup_setLength (reg : DriverReg) (kq k : String) (len : Int) :
    regLookup (regSetLength reg kq len) k =
      (regLookup reg k).map
        (fun d => if k = kq then { d with memory_length := len } else d) := by
  induction reg with
  | nil => simp [regLookup, regSetLength]
  | cons kd rest ih =>
      simp only [regSetLength, List.map_cons] at ih ⊢
      by_cases h1 : kd.1 = kq <;> by_cases h2 : kd.1 = k
      · have hk : k = kq := h2.symm.trans h1
        simp [regLookup, h1, h2, hk, ih]
      · have h2b : ¬ kq = k := fun hx => h2 (h1.trans hx)
        simp [regLookup, h1, h2, h2b, ih]
      · have hk : ¬ k = kq := fun hkk => h1 (h2.trans hkk)
        simp [regLookup, h1, h2, hk, ih]
      · simp [regLookup, h1, h2, ih]

/-- The record of the C1 concrete scenario with offset 0 and length 2. -/
def c1rec1 : ModbusRecord :=
  { c3rec with
      memory_offset := Cell.vInt 0
      data_length := Cell.vInt 2
      modbus_funcode := some (Cell.vInt 3) }

/-- The record of the C1 concrete scenario with offset 4 and length 2. -/
def c1rec2 : ModbusRecord :=
  { c1rec1 with memory_offset := Cell.vInt 4 }


/-- C1: two completed records with the same interface key, registered into
an empty registry in either order, leave exactly one driver whose stored
length is the maximum of the two spans; registering any record against a
registry never decreases any stored length; and the concrete scenario of
two function-code-3 records with offsets 0 and 4 and data length 2 yields
one interface of span 5 and exactly one configuration line. -/
theorem c1_registry_merge (p1 p2 : Prepared)
    (hkey : p1.interface_name = p2.interface_name) :
    ((registerDriver (registerDriver [] p1) p2).length = 1 ∧
     (∃ d, regLookup (registerDriver (registerDriver [] p1) p2)
         p1.interface_name = some d ∧
       d.memory_length = max p1.memory_length p2.memory_length) ∧
     (registerDriver (registerDriver [] p2) p1).length = 1 ∧
     (∃ d, regLookup (registerDriver (registerDriver [] p2) p1)
         p1.interface_name = some d ∧
       d.memory_length = max p1.memory_length p2.memory_length)) ∧
    (∀ (reg : DriverReg) (q : Prepared) (k : String) (d : ModbusDriver),
      regLookup reg k = some d →
      ∃ d2, regLookup (registerDriver reg q) k = some d2 ∧
        d.memory_length ≤ d2.memory_length) ∧
    (∃ q1 q2, gen_prepare c1rec1 = Except.ok q1 ∧
      gen_prepare c1rec2 = Except.ok q2 ∧
      q1.memory_length = 1 ∧ q2.memory_length = 5 ∧
      q1.interface_name = q2.interface_name ∧
      (registerDriver (registerDriver [] q1) q2).length = 1 ∧
      (∃ d, regLookup (registerDriver (registerDriver [] q1) q2)
          q1.interface_name = some d ∧ d.memory_length = 5) ∧
      (cmdLinesForDevice (registerDriver (registerDriver [] q1) q2)
          (Cell.vStr "PLC1")).length = 1) := by
  have pairMerge : ∀ a b : Prepared, a.interface_name = b.interface_name →
      (registerDriver (registerDriver [] a) b).length = 1 ∧
      (∃ d, regLookup (registerDriver (registerDriver [] a) b)
          a.interface_name = some d ∧
        d.memory_length = max a.memory_length b.memory_length) := by
    intro a b hab
    have h1 : registerDriver [] a = [(a.interface_name, driverOfPrepared a)] :=
      registerDriver_nil a
    have hlook : regLookup [(a.interface_name, driverOfPrepared a)]
        b.interface_name = some (driverOfPrepared a) := by
      simp [regLookup, hab]
    have h2 := registerDriver_found hlook
    rw [h1, h2]
    by_cases hgt : b.memory_length > (driverOfPrepared a).memory_length
    · rw [if_pos hgt]
      refine ⟨by simp [regSetLength], ?_⟩
      refine ⟨{ driverOfPrepared a with memory_length := b.memory_length }, ?_, ?_⟩
      · simp [regSetLength, regLookup, hab]
      · have : (driverOfPrepared a).memory_length = a.memory_length := rfl
        simp only []
        omega
    · rw [if_neg hgt]
      refine ⟨rfl, ⟨driverOfPrepared a, by simp [regLookup], ?_⟩⟩
      have : (driverOfPrepared a).memory_length = a.memory_length := rfl
      omega
  refine ⟨?_, ?_, ?_⟩
  · obtain ⟨hl1, hd1⟩ := pairMerge p1 p2 hkey
    obtain ⟨hl2, hd2⟩ := pairMerge p2 p1 hkey.symm
    refine ⟨hl1, hd1, hl2, ?_⟩
    obtain ⟨d, hd, hlen⟩ := hd2
    refine ⟨d, ?_, ?_⟩
    · rw [hkey]
      exact hd
    · rw [hlen]
      exact sup_comm _ _
  · intro reg q k d hlook
    rcases hq : regLookup reg q.interface_name with _ | d0
    · rw [registerDriver_not_found hq]
      exact ⟨d, regLookup_append_left _ hlook, le_refl _⟩
    · rw [registerDriver_found hq]
      by_cases hgt : q.memory_length > d0.memory_length
      · rw [if_pos hgt]
        rw [regLookup_setLength, hlook]
        simp only [Option.map]
        by_cases hk : k = q.interface_name
        · rw [if_pos hk]
          refine ⟨_, rfl, ?_⟩
          show d.memory_length ≤ q.memory_length
          have hdd : d = d0 := by
            rw [hk] at hlook
            rw [hlook] at hq
            injection hq
          rw [hdd]
          exact le_of_lt hgt
        · rw [if_neg hk]
          exact ⟨d, rfl, le_refl _⟩
      · rw [if_neg hgt]
        exact ⟨d, hlook, le_refl _⟩
  · exact ⟨_, _, rfl, rfl, rfl, rfl, rfl, rfl, ⟨_, rfl, rfl⟩, rfl⟩


/-- The completed record produced by `gen_prepare` on `c3rec`. -/
def c3prep : Prepared :=
  { line_number := 2
    name := "Temp"
    namePre := "PLC1"
    name_seperator := ":"
    scan := Cell.vNone
    desc := Cell.vNone
    prec := Cell.vNone
    egu := Cell.vNone
    other_fields := []
    device := Cell.vStr "PLC1"
    slave_id := Cell.vInt 1
    memory_address := Cell.vInt 100
    memory_offset := 0
    data_length := 4
    memory_length := 2
    device_access := Cell.vStr "r"
    drvUserPre := "FLOAT32"
    drvUserSuf := "_LE"
    modbus_funcode := 3
    rtype := "ai"
    interface_name := "PLC1_1_Addr100_FC3"
    memory_address_mask := Cell.vNone }

/-- Witness for `c2_span_formula` at the concrete C3 record. -/
theorem c2_span_formula_witness :
    c3rec.memory_offset = Cell.vInt 0 ∧ c3rec.data_length = Cell.vInt 4 ∧
    gen_prepare c3rec = Except.ok c3prep ∧
    ((c3prep.modbus_funcode = 1 ∨ c3prep.modbus_funcode = 2 ∨
        c3prep.modbus_funcode = 5 ∨ c3prep.modbus_funcode = 15 →
        c3prep.memory_length = 0 + 4) ∧
     (c3prep.modbus_funcode = 3 ∨ c3prep.modbus_funcode = 4 ∨
        c3prep.modbus_funcode = 6 ∨ c3prep.modbus_funcode = 16 →
        c3prep.memory_length = 0 + pyCeilHalf 4)) :=
  ⟨rfl, rfl, rfl, c2_span_formula c3rec c3prep 0 4 rfl rfl rfl⟩

/-- Witness for `c1_registry_merge` at a concrete completed record. -/
theorem c1_registry_merge_witness :
    (registerDriver (registerDriver [] c3prep) c3prep).length = 1 :=
  (c1_registry_merge c3prep c3prep rfl).1.1

/-- A record with explicit function code 1 but access mode `w`. -/
def c4rec : ModbusRecord :=
  { c3rec with
      modbus_funcode := some (Cell.vInt 1)
      device_access := Cell.vStr "w" }

/-- Witness for `c4_funcode_table`: function code 1 with access `w` is the
access/function-code mismatch error. -/
theorem c4_funcode_table_witness :
    gen_prepare c4rec = Except.error (ConfigError.accessFuncodeMismatch 2) :=
  (c4_funcode_table c4rec "FLOAT32" "_LE" 1 (by decide) (Or.inr (by decide))
    (by decide) ⟨by decide, by decide⟩ (Or.inr rfl) rfl rfl (by decide) rfl).1
    (Or.inl rfl) rfl

/-- A record whose concatenated encoding tag `FLOAT32_XX` is not
whitelisted. -/
def c5rec : ModbusRecord :=
  { c3rec with drvUserSuf := Cell.vStr "_XX" }

/-- Witness for `c5_format_whitelist` at the concrete record `c5rec`. -/
theorem c5_format_whitelist_witness :
    ("FLOAT32" ++ "_XX") ∉ SupportedDataFormatList ∧
    gen_prepare c5rec = Except.error (ConfigError.badDataFormat 2) :=
  ⟨by decide, (c5_format_whitelist c5rec "FLOAT32" "_XX" (by decide)
      (Or.inr (by decide)) (Or.inr (by decide)) ⟨by decide, by decide⟩
      (Or.inl rfl) (by decide) rfl rfl).1 (by decide)⟩


/-- Warnings logged by the row interpreter (processing continues). -/
inductive Warning where
  /-- Line 344-345: device name cell falsy; the placeholder
  `UnknownDevice` is used. -/
  | unknownDeviceName (line : Nat)
  /-- Line 356-357: slave-id cell is not an int; the message announces that
  the default slave id 0 will be used. -/
  | slaveDefaultZero (line : Nat)
deriving DecidableEq, Repr

/-- The semantic column a header cell was matched to. The source matches
header fragments by substring (lines 341-416); a header cell matching no
fragment, like a blank one, is skipped (`none`). -/
inductive Column where
  | plcName
  | ipPort
  | plcInfo
  | slaveId
  | funcodeCol
  | addressCol
  | offsetCol
  | dataOp
  | dataLen
  | pvPre
  | pvSuf
  | scanCol
  | descCol
  | precCol
  | eguCol
  | dataType
  | dataFormat
  | maskCol
  | otherFieldsCol
deriving DecidableEq, Repr

/-- The per-row working state of `handle_excel_list`: the record being
filled and the row-local device descriptor variables. -/
structure RowState where
  pv : ModbusRecord
  device_name : Cell
  device_address : Cell
  device_info : Cell
deriving DecidableEq, Repr

/-- A fresh `ModbusRecord` as `__init__` leaves it (name `default`,
separator `:`), with the row's line number attached (lines 330-331). The
`None` of `name_prefix` is modelled by `""`, the value `gen_prepare`
defaults it to. -/
def initRecord (line : Nat) : ModbusRecord :=
  { line_number := line
    name := "default"
    namePre := ""
    name_seperator := ":"
    scan := Cell.vNone
    desc := Cell.vNone
    prec := Cell.vNone
    egu := Cell.vNone
    other_fields := []
    device := Cell.vNone
    slave_id := Cell.vNone
    memory_address := Cell.vNone
    memory_offset := Cell.vNone
    data_length := Cell.vNone
    device_access := Cell.vNone
    drvUserPre := Cell.vNone
    drvUserSuf := Cell.vNone
    modbus_funcode := none
    memory_address_mask := Cell.vNone }

/-- One matched header cell of one row (`handle_excel_list`, lines
341-416). Cells that hold non-string values where the source would later
concatenate strings are stored via their rendering (`pyStr`); the
access-mode cell must be a string or Python's `.lower()` raises
`AttributeError`. -/
def interpretCell (line : Nat) (st : RowState) (col : Column) (cell : Cell) :
    Except ConfigError (RowState × List Warning) :=
  match col with
  | Column.plcName =>
      if ¬ cell.truthy then
        Except.ok
          ({ st with device_name := Cell.vStr "UnknownDevice",
                     pv := { st.pv with device := Cell.vStr "UnknownDevice" } },
           [Warning.unknownDeviceName line])
      else
        Except.ok
          ({ st with device_name := cell, pv := { st.pv with device := cell } }, [])
  | Column.ipPort =>
      if ¬ cell.truthy then Except.error (ConfigError.noDeviceAddress line)
      else Except.ok ({ st with device_address := cell }, [])
  | Column.plcInfo => Except.ok ({ st with device_info := cell }, [])
  | Column.slaveId =>
      Except.ok ({ st with pv := { st.pv with slave_id := cell } },
        if ¬ cell.isInt then [Warning.slaveDefaultZero line] else [])
  | Column.funcodeCol =>
      Except.ok ({ st with pv := { st.pv with modbus_funcode :=
        match cell with
        | Cell.vNone => none
        | c => some c } }, [])
  | Column.addressCol =>
      if ¬ cell.truthy ∨ ¬ cell.isInt then
        Except.error (ConfigError.noMemoryAddress line)
      else Except.ok ({ st with pv := { st.pv with memory_address := cell } }, [])
  | Column.offsetCol =>
      if ¬ cell.isInt then Except.error (ConfigError.badOffsetCell line)
      else Except.ok ({ st with pv := { st.pv with memory_offset := cell } }, [])
  | Column.dataOp =>
      match cell with
      | Cell.vStr s =>
          if ¬ (pyLower s = "r" ∨ pyLower s = "w" ∨ pyLower s = "rw") then
            Except.error (ConfigError.badAccessCell line)
          else
            Except.ok ({ st with pv := { st.pv with device_access := Cell.vStr s } }, [])
      | _ => Except.error ConfigError.pythonAttrError
  | Column.dataLen =>
      match cell with
      | Cell.vInt n =>
          if n ≤ 0 then Except.error (ConfigError.badDataLenCell line)
          else Except.ok ({ st with pv := { st.pv with data_length := cell } }, [])
      | _ => Except.error (ConfigError.badDataLenCell line)
  | Column.pvPre =>
      if ¬ cell.truthy then Except.error (ConfigError.noNamePre line)
      else Except.ok ({ st with pv := { st.pv with namePre := cell.pyStr } }, [])
  | Column.pvSuf =>
      if ¬ cell.truthy then Except.error (ConfigError.noNameSuf line)
      else Except.ok ({ st with pv := { st.pv with name := cell.pyStr } }, [])
  | Column.scanCol => Except.ok ({ st with pv := { st.pv with scan := cell } }, [])
  | Column.descCol => Except.ok ({ st with pv := { st.pv with desc := cell } }, [])
  | Column.precCol => Except.ok ({ st with pv := { st.pv with prec := cell } }, [])
  | Column.eguCol => Except.ok ({ st with pv := { st.pv with egu := cell } }, [])
  | Column.dataType =>
      if ¬ cell.truthy then Except.error (ConfigError.noDataType line)
      else Except.ok ({ st with pv := { st.pv with drvUserPre := cell } }, [])
  | Column.dataFormat =>
      Except.ok ({ st with pv := { st.pv with drvUserSuf := cell } }, [])
  | Column.maskCol =>
      Except.ok ({ st with pv := { st.pv with memory_address_mask := cell } }, [])
  | Column.otherFieldsCol =>
      Except.ok ({ st with pv :=
        { st.pv with other_fields := st.pv.other_fields ++ [cell] } }, [])

/-- One full row of `handle_excel_list`: walk the header cells in order,
apply each matched column's handler and collect warnings. -/
def interpretRow (line : Nat) (hdr : List (Option Column)) (row : List Cell) :
    Except ConfigError (RowState × List Warning) :=
  (hdr.zip row).foldlM
    (fun acc hc =>
      match hc.1 with
      | none => Except.ok acc
      | some col => do
          let res ← interpretCell line acc.1 col hc.2
          Except.ok (res.1, acc.2 ++ res.2))
    ({ pv := initRecord line, device_name := Cell.vNone,
       device_address := Cell.vNone, device_info := Cell.vNone }, [])

/-- A registered device (`ModbusDevice`, source lines 40-45). -/
structure ModbusDevice where
  name : Cell
  device_type : Cell
  address : Cell
  info : Cell
deriving DecidableEq, Repr

/-- The global `DeviceRegistered` dict (insertion-ordered). -/
abbrev DeviceReg := List (Cell × ModbusDevice)

/-- The `device_pvs` dict: records grouped by device name. -/
abbrev DevicePvs := List (Cell × List ModbusRecord)

/-- Dict lookup on the device registry. -/
def devLookup (reg : DeviceReg) (k : Cell) : Option ModbusDevice :=
  match reg with
  | [] => none
  | kd :: rest => if kd.1 = k then some kd.2 else devLookup rest k

/-- Append a record to a device's list in `device_pvs`. -/
def pvsAppend (dpvs : DevicePvs) (k : Cell) (pv : ModbusRecord) : DevicePvs :=
  dpvs.map (fun kd => if kd.1 = k then (kd.1, kd.2 ++ [pv]) else kd)

/-- The end-of-row registration (source lines 418-427): on first sight of
the device name, register a new `ModbusDevice` with this row's address and
info and create its `device_pvs` entry; then append the record. Rows for an
already-registered name leave the device registry untouched. -/
def registerRow (devReg : DeviceReg) (dpvs : DevicePvs) (st : RowState) :
    DeviceReg × DevicePvs :=
  if (devLookup devReg st.device_name).isNone then
    (devReg ++ [(st.device_name,
       { name := st.device_name, device_type := Cell.vStr "Modbus",
         address := st.device_address, info := st.device_info })],
     pvsAppend (dpvs ++ [(st.device_name, [])]) st.device_name st.pv)
  else
    (devReg, pvsAppend dpvs st.device_name st.pv)

/-- The row loop of `handle_excel_list` (lines 328-427); data row `j`
(0-based) is spreadsheet line `j + 2`. -/
def handleRows (hdr : List (Option Column)) :
    Nat → DeviceReg → DevicePvs → List Warning → List (List Cell) →
    Except ConfigError (DeviceReg × DevicePvs × List Warning)
  | _, devReg, dpvs, ws, [] => Except.ok (devReg, dpvs, ws)
  | line, devReg, dpvs, ws, row :: rest => do
      let res ← interpretRow line hdr row
      let regs := registerRow devReg dpvs res.1
      handleRows hdr (line + 1) regs.1 regs.2 (ws ++ res.2) rest

/-- `handle_excel_list` on the data rows below the header row. -/
def handle_excel_list (hdr : List (Option Column)) (rows : List (List Cell)) :
    Except ConfigError (DeviceReg × DevicePvs × List Warning) :=
  handleRows hdr 2 [] [] [] rows

/-- The result of one compiler run: which output files were written, in
order, and the failure that aborted the run, if any. -/
structure RunOutcome where
  written : List String
  failure : Option ConfigError
deriving DecidableEq, Repr

/-- The per-device record loop of `__main__` (lines 472-475): prepare each
record, register its interface (the returned configuration line is
discarded there) and accumulate its db lines. -/
def renderPvs (dreg : DriverReg) :
    List ModbusRecord → Except ConfigError (DriverReg × List String)
  | [] => Except.ok (dreg, [])
  | pv :: rest => do
      let p ← gen_prepare pv
      let dreg2 := registerDriver dreg p
      let db ← gen_db_lines p
      let res ← renderPvs dreg2 rest
      Except.ok (res.1, db ++ res.2)

/-- The device loop of `__main__` (lines 457-487): for each device render
all its records, then write `<dev>.db` followed by `<dev>.cmd`. A failure
inside a device's record loop aborts the run; files already written for
earlier devices remain. -/
def renderDevices (dreg : DriverReg) (written : List String) :
    DevicePvs → RunOutcome
  | [] => { written := written, failure := none }
  | devpvs :: rest =>
      match renderPvs dreg devpvs.2 with
      | Except.error e => { written := written, failure := some e }
      | Except.ok res =>
          renderDevices res.1
            (written ++ [devpvs.1.pyStr ++ ".db", devpvs.1.pyStr ++ ".cmd"]) rest

/-- One full run of the Modbus compiler: interpretation of all rows, then
rendering; an interpretation failure writes nothing. -/
def runModbus (hdr : List (Option Column)) (rows : List (List Cell)) :
    RunOutcome :=
  match handle_excel_list hdr rows with
  | Except.error e => { written := [], failure := some e }
  | Except.ok res => renderDevices [] [] res.2.1


/-- Header of the C7 two-device table. -/
def c7hdr : List (Option Column) :=
  [some Column.plcName, some Column.ipPort, some Column.slaveId,
   some Column.addressCol, some Column.offsetCol, some Column.dataOp,
   some Column.dataLen, some Column.dataType, some Column.dataFormat,
   some Column.pvPre, some Column.pvSuf]

/-- Rows of the C7 table: a fully valid row for `DEV1`, then a row for
`DEV2` whose access-mode cell `rw` passes the row interpreter (which
accepts `r`/`w`/`rw` case-insensitively) but is invalid for inference
(`gen_prepare` accepts only the exact strings `r` and `w`). -/
def c7rows : List (List Cell) :=
  [[Cell.vStr "DEV1", Cell.vStr "10.0.0.1:502", Cell.vInt 1, Cell.vInt 100,
    Cell.vInt 0, Cell.vStr "r", Cell.vInt 2, Cell.vStr "INT16", Cell.vStr "",
    Cell.vStr "DEV1", Cell.vStr "T1"],
   [Cell.vStr "DEV2", Cell.vStr "10.0.0.2:502", Cell.vInt 1, Cell.vInt 100,
    Cell.vInt 0, Cell.vStr "rw", Cell.vInt 2, Cell.vStr "INT16", Cell.vStr "",
    Cell.vStr "DEV2", Cell.vStr "T2"]]

/-- C7 counterexample: the run on the C7 table aborts with the
configuration error for row 3's access mode, but the db and cmd files of
the first device have already been written, contradicting the claim that
no output files are written for the run. -/
theorem c7_counterexample :
    runModbus c7hdr c7rows =
      { written := ["DEV1.db", "DEV1.cmd"],
        failure := some (ConfigError.badAccess 3) } ∧
    ["DEV1.db", "DEV1.cmd"] ≠ ([] : List String) := by
  constructor
  · rfl
  · decide

/-- C7 (amended): an access-mode cell whose lowercased string value is not
`r`, `w` or `rw` is rejected by the row interpreter with the configuration
error citing the row's line number, and any interpretation-stage error
aborts the run before any output file is written; an access value that
passes interpretation but is not exactly `r` or `w` is rejected only at
inference time (`gen_prepare`), again citing the row's line number — by
which point files for earlier devices may already exist (see the
counterexample). -/
theorem c7_access_abort (line : Nat) (st : RowState) (s : String)
    (hbad : ¬ (pyLower s = "r" ∨ pyLower s = "w" ∨ pyLower s = "rw")) :
    interpretCell line st Column.dataOp (Cell.vStr s) =
      Except.error (ConfigError.badAccessCell line) ∧
    (∀ (hdr : List (Option Column)) (rows : List (List Cell)) (e : ConfigError),
      handle_excel_list hdr rows = Except.error e →
      runModbus hdr rows = { written := [], failure := some e }) ∧
    (∀ r : ModbusRecord,
      ¬ (r.device_access = Cell.vStr "r" ∨ r.device_access = Cell.vStr "w") →
      r.device.truthy = true →
      (r.slave_id.truthy = true ∨ r.slave_id.isInt = true) →
      (r.memory_offset.truthy = true ∨ r.memory_offset.isInt = true) →
      (r.data_length.truthy = true ∧ r.data_length.isInt = true) →
      gen_prepare r = Except.error (ConfigError.badAccess r.line_number)) := by
  refine ⟨?_, ?_, ?_⟩
  · simp only [interpretCell]
    rw [if_pos hbad]
  · intro hdr rows e h
    unfold runModbus
    rw [h]
  · intro r hacc hdev hslave hoff hlen
    unfold gen_prepare
    rw [if_neg (by simp [hdev])]
    rw [if_neg (by rcases hslave with h | h <;> simp [h])]
    rw [if_neg (by rcases hoff with h | h <;> simp [h])]
    rw [if_neg (by simp [hlen.1, hlen.2])]
    rw [if_pos hacc]

/-- Witness for `c7_access_abort` at a concrete invalid access value. -/
theorem c7_access_abort_witness :
    interpretCell 3
      { pv := initRecord 3, device_name := Cell.vNone,
        device_address := Cell.vNone, device_info := Cell.vNone }
      Column.dataOp (Cell.vStr "x") =
      Except.error (ConfigError.badAccessCell 3) :=
  (c7_access_abort 3
    { pv := initRecord 3, device_name := Cell.vNone,
      device_address := Cell.vNone, device_info := Cell.vNone }
    "x" (by decide)).1


/-- Appending a binding for a key absent from the prefix makes it the
lookup result. -/
theorem devLookup_append_right {reg : DeviceReg} {k : Cell}
    (d : ModbusDevice) (h : devLookup reg k = none) :
    devLookup (reg ++ [(k, d)]) k = some d := by
  induction reg with
  | nil => simp [devLookup]
  | cons kd rest ih =>
      rw [List.cons_append]
      simp only [devLookup] at h ⊢
      by_cases hk : kd.1 = k
      · rw [if_pos hk] at h
        exact Option.noConfusion h
      · rw [if_neg hk] at h ⊢
        exact ih h

/-- C9 (amended): a Device is registered exactly once, on the first row
that mentions its name, with address and info taken from that row; every
later row for the same name leaves the device registry unchanged, so the
first-seen values persist (the claim's last-seen-wins is refuted by the
counterexample). -/
theorem c9_device_first_wins (devReg : DeviceReg) (dpvs : DevicePvs)
    (st : RowState) (hnew : devLookup devReg st.device_name = none) :
    devLookup (registerRow devReg dpvs st).1 st.device_name =
      some { name := st.device_name, device_type := Cell.vStr "Modbus",
             address := st.device_address, info := st.device_info } ∧
    (∀ (devReg2 : DeviceReg) (dpvs2 : DevicePvs) (st2 : RowState),
      (devLookup devReg2 st2.device_name).isSome = true →
      (registerRow devReg2 dpvs2 st2).1 = devReg2) := by
  constructor
  · unfold registerRow
    rw [if_pos (by rw [hnew]; rfl)]
    exact devLookup_append_right _ hnew
  · intro devReg2 dpvs2 st2 h2
    unfold registerRow
    rw [if_neg (by
      intro hx
      rw [Option.isNone_iff_eq_none] at hx
      rw [hx] at h2
      exact Bool.noConfusion h2)]

/-- Header of the C9 two-row table. -/
def c9hdr : List (Option Column) :=
  [some Column.plcName, some Column.ipPort, some Column.plcInfo]

/-- Two rows for the same device `DEV1` declaring different info values
(`a` first, then `b`). -/
def c9rows : List (List Cell) :=
  [[Cell.vStr "DEV1", Cell.vStr "A1", Cell.vStr "a"],
   [Cell.vStr "DEV1", Cell.vStr "A2", Cell.vStr "b"]]

/-- C9 counterexample: after two rows for the same device with info `a`
then `b`, the registered Device keeps the first row's info `a` — the
last-seen value `b` does not win, refuting the claim's last-seen-wins
clause. -/
theorem c9_counterexample :
    (handle_excel_list c9hdr c9rows).map
        (fun res => devLookup res.1 (Cell.vStr "DEV1")) =
      Except.ok
        (some { name := Cell.vStr "DEV1", device_type := Cell.vStr "Modbus",
                address := Cell.vStr "A1", info := Cell.vStr "a" }) ∧
    (Cell.vStr "a" : Cell) ≠ Cell.vStr "b" := by
  exact ⟨rfl, by decide⟩

/-- Witness for `c9_device_first_wins` at an empty registry and a concrete
row state. -/
theorem c9_device_first_wins_witness :
    devLookup
      (registerRow [] []
        { pv := initRecord 2, device_name := Cell.vStr "DEV1",
          device_address := Cell.vStr "A1", device_info := Cell.vStr "a" }).1
      (Cell.vStr "DEV1") =
      some { name := Cell.vStr "DEV1", device_type := Cell.vStr "Modbus",
             address := Cell.vStr "A1", info := Cell.vStr "a" } :=
  (c9_device_first_wins [] []
    { pv := initRecord 2, device_name := Cell.vStr "DEV1",
      device_address := Cell.vStr "A1", device_info := Cell.vStr "a" }
    rfl).1


/-- C10: a non-integer slave-id cell only triggers the warning that
announces the default slave id 0, while the original cell value is stored
unchanged; a record carrying a truthy string slave id passes the
inference-time slave-id check, and the string is embedded verbatim in the
derived interface name and in the driver configuration line. -/
theorem c10_slave_id (line : Nat) (st : RowState) (s : String) (hs : s ≠ "")
    (r : ModbusRecord) (pre suf : String)
    (hslave : r.slave_id = Cell.vStr s)
    (hdev : r.device.truthy = true)
    (hoffInt : r.memory_offset.isInt = true)
    (hlen : r.data_length.truthy = true ∧ r.data_length.isInt = true)
    (haccr : r.device_access = Cell.vStr "r")
    (hpre : strOrDefault r.drvUserPre = some pre)
    (hsuf : strOrDefault r.drvUserSuf = some suf)
    (hfmt : formatSupported pre suf = true)
    (hfcnone : r.modbus_funcode = none) :
    (∀ c : Cell, c.isInt = false →
      interpretCell line st Column.slaveId c =
        Except.ok ({ st with pv := { st.pv with slave_id := c } },
          [Warning.slaveDefaultZero line])) ∧
    (∃ p, gen_prepare r = Except.ok p ∧ p.slave_id = Cell.vStr s ∧
      p.modbus_funcode = 3 ∧
      p.interface_name = r.device.pyStr ++ "_" ++ s ++ "_Addr" ++
        r.memory_address.pyStr ++ "_FC" ++ toString p.modbus_funcode ∧
      (driverOfPrepared p).config_line =
        "drvModbusAsynConfigure(\"" ++ p.interface_name ++ "\", \"" ++
          r.device.pyStr ++ "\", " ++ s ++ ", " ++
          toString p.modbus_funcode ++ ", " ++ r.memory_address.pyStr ++
          ", " ++ toString p.memory_length ++ ", 0, 100, \"" ++
          r.device.pyStr ++ "\")\n") := by
  constructor
  · intro c hc
    simp only [interpretCell]
    rw [if_pos (by simp [hc])]
  · have hstruthy : r.slave_id.truthy = true := by
      rw [hslave]
      simp [Cell.truthy, hs]
    obtain ⟨o, ho⟩ := isInt_exists hoffInt
    obtain ⟨l, hl⟩ := isInt_exists hlen.2
    have hred := gen_prepare_checks_pass r pre suf hdev (Or.inl hstruthy)
      (Or.inr hoffInt) hlen (Or.inl haccr) (by rw [hfcnone]; rfl) hpre hsuf
    rw [hred]
    unfold inferTail
    rw [if_neg (by simp [hfmt])]
    simp only [hfcnone]
    rw [if_pos haccr]
    unfold finishPrepare
    simp only [ho, hl]
    refine ⟨_, rfl, hslave, rfl, ?_, ?_⟩
    · simp only [hslave]
      rfl
    · simp only [ModbusDriver.config_line, driverOfPrepared, hslave]
      rfl


/-- A record whose slave-id cell holds the string `S1`. -/
def c10rec : ModbusRecord := { c3rec with slave_id := Cell.vStr "S1" }

/-- Witness for `c10_slave_id`: the string slave id `S1` appears verbatim
in the derived interface name. -/
theorem c10_slave_id_witness :
    (gen_prepare c10rec).map (fun p => p.interface_name) =
      Except.ok "PLC1_S1_Addr100_FC3" := by
  obtain ⟨p, hp, hsl, hfc, hif, hcfg⟩ :=
    (c10_slave_id 2
      { pv := initRecord 2, device_name := Cell.vNone,
        device_address := Cell.vNone, device_info := Cell.vNone }
      "S1" (by decide) c10rec "FLOAT32" "_LE" rfl (by decide) (by decide)
      ⟨by decide, by decide⟩ rfl rfl rfl (by decide) rfl).2
  rw [hp]
  simp only [Except.map]
  rw [hif, hfc]
  rfl

end Modbus

namespace Stream

/-- A stream data channel (`StreamData`, `excel2db4StreamDevice.py` lines
102-115). The owning driver is stored by its name (the source stores the
`AsynDriver` object, whose string form is its name and is what both the
dedup key and `get_terminator_string` use). Terminator and template cells
are strings when declared (the row interpreter rejects falsy cells for the
terminator columns). -/
structure StreamData where
  name : String
  asyn_driver : String
  data_operation : String
  terminator : Option String
  in_terminator : Option String
  out_terminator : Option String
  out_command : Option String
  in_match_str : Option String
  intr : Bool
  with_init : Bool
deriving DecidableEq, Repr

/-- Python truthiness of an optional string. -/
def optTruthy : Option String → Bool
  | none => false
  | some s => s != ""

/-- Python `f'{x}'` on an optional string (`None` renders as `None`). -/
def optPyStr : Option String → String
  | none => "None"
  | some s => s

/-- `str(StreamData)` (lines 161-165): the dedup key
`<driver>-<name>-<operation>`. -/
def StreamData.key (sd : StreamData) : String :=
  sd.asyn_driver ++ "-" ++ sd.name ++ "-" ++ sd.data_operation

/-- `proto_name` (lines 117-119). -/
def StreamData.proto_name (sd : StreamData) : String :=
  if sd.data_operation = "r" then "get" ++ sd.name else "set" ++ sd.name

/-- One tally step of `get_global_terminator_settings` (lines 176-190): an
insertion-ordered count dict. -/
def bump (acc : List (String × Nat)) (t : String) : List (String × Nat) :=
  if acc.any (fun p => p.1 = t) then
    acc.map (fun p => if p.1 = t then (p.1, p.2 + 1) else p)
  else
    acc ++ [(t, 1)]

/-- The occurrence tally of one terminator field over the channels bound to
one driver (lines 169-190): channels of other drivers and channels whose
field is falsy contribute nothing. -/
def tally (get : StreamData → Option String) (drvName : String)
    (sdatas : List StreamData) : List (String × Nat) :=
  sdatas.foldl
    (fun acc sd =>
      if sd.asyn_driver ≠ drvName then acc
      else
        match get sd with
        | some t => if t ≠ "" then bump acc t else acc
        | none => acc)
    []

/-- Python `max(d, key=d.get)` on an insertion-ordered dict: the first key
attaining the maximal count (later keys replace only on strictly greater
counts). -/
def maxGo (best : String × Nat) : List (String × Nat) → String × Nat
  | [] => best
  | q :: rest => maxGo (if q.2 > best.2 then q else best) rest

/-- The driver-level default for one terminator field (lines 191-203):
absent when the tally is empty. -/
def firstMaxKey : List (String × Nat) → Option String
  | [] => none
  | p :: rest => some (maxGo p rest).1

/-- The driver's consensus default for a terminator field. -/
def commonTerminator (get : StreamData → Option String) (drvName : String)
    (sdatas : List StreamData) : Option String :=
  firstMaxKey (tally get drvName sdatas)

/-- One override piece of `get_terminator_string` (lines 205-226): emit the
per-channel line only when the channel declares a truthy value, the driver
has a default for that field, and the two differ. -/
def overridePiece (label : String) (common : Option String)
    (mine : Option String) : String :=
  match mine with
  | some t =>
      if t ≠ "" then
        match common with
        | some c => if t ≠ c then "\t" ++ label ++ " = " ++ t ++ ";\n" else ""
        | none => ""
      else ""
  | none => ""

/-- `StreamData.get_terminator_string` given the driver's three consensus
defaults. -/
def get_terminator_string (ct cit cot : Option String) (sd : StreamData) :
    String :=
  overridePiece "Terminator" ct sd.terminator ++
  overridePiece "InTerminator" cit sd.in_terminator ++
  overridePiece "OutTerminator" cot sd.out_terminator

/-- The `StreamDataRegistered` dict (insertion-ordered). -/
abbrev StreamDataReg := List (String × StreamData)

/-- Dict lookup on the stream data registry. -/
def sdLookup (reg : StreamDataReg) (k : String) : Option StreamData :=
  match reg with
  | [] => none
  | kd :: rest => if kd.1 = k then some kd.2 else sdLookup rest k

/-- `StreamData.protocol` (lines 121-159): the protocol entry emitted for
one channel, given the stream data registry (for the paired-read `@init`
lookup) and the driver's consensus terminators. -/
def protocol (reg : StreamDataReg) (ct cit cot : Option String)
    (sd : StreamData) : String :=
  let line := sd.proto_name ++ "\x7b\n"
  let line := line ++ get_terminator_string ct cit cot sd
  let line := line ++
    (if sd.intr then "\tin \"" ++ optPyStr sd.in_match_str ++ "\";\n"
     else
       (if optTruthy sd.out_command then
          "\tout \"" ++ optPyStr sd.out_command ++ "\";\n" else "") ++
       (if optTruthy sd.in_match_str then
          "\tin \"" ++ optPyStr sd.in_match_str ++ "\";\n" else "") ++
       "\t@mismatch\x7b in \"%(\\$1)39c\"; disconnect; \x7d\n" ++
       "\t@replytimeout\x7b disconnect; \x7d\n")
  let line := line ++
    (if sd.with_init ∧ sd.data_operation = "w" then
       match sdLookup reg (sd.asyn_driver ++ "-" ++ sd.name ++ "-r") with
       | some gsd =>
           if ¬ gsd.intr then "\t@init\x7b get" ++ sd.name ++ "; \x7d\n"
           else
             "\t@init\x7b\n" ++
             (if optTruthy gsd.out_command then
                "\t\tout \"" ++ optPyStr gsd.out_command ++ "\";\n" else "") ++
             (if optTruthy gsd.in_match_str then
                "\t\tin \"" ++ optPyStr gsd.in_match_str ++ "\";\n" else "") ++
             "\t\t@mismatch\x7b in \"%(\\$1)39c\"; disconnect; \x7d\n" ++
             "\t\t@replytimeout\x7b disconnect; \x7d\n" ++
             "\t\x7d\n"
       | none => ""
     else "")
  line ++ "\x7d\n"

/-- The per-row registration of `handle_excel_list` (lines 507-515)
restricted to the stream-data registry and the per-driver record lists:
each row's fresh `StreamData` is registered under its key only when the key
is new, but the row's record always keeps the fresh object
(`pv_temp.stream_data = sdata_temp`), and one entry per row is appended to
the driver's list. -/

def registerStreamData (reg : StreamDataReg) (sd : StreamData) :
    StreamDataReg :=
  if (sdLookup reg sd.key).isNone then reg ++ [(sd.key, sd)] else reg

/-- The fold of the per-row loop over already-interpreted rows. -/
def processStreamRows (rows : List StreamData) :
    StreamDataReg × List StreamData :=
  rows.foldl
    (fun acc sd => (registerStreamData acc.1 sd, acc.2 ++ [sd]))
    ([], [])

/-- The protocol entries the `__main__` renderer emits for one driver's
records (lines 583-586): one `protocol` block per record, in row order. -/
def protoEntries (reg : StreamDataReg) (ct cit cot : Option String)
    (pvs : List StreamData) : List String :=
  pvs.map (fun sd => protocol reg ct cit cot sd)


/-- C6: on a driver whose data channels declare terminators `[A, A, B]`
(with `A` and `B` distinct and non-empty), the consensus resolves the
driver-level default to `A`; the channel using `B` emits an explicit
per-channel `Terminator` override line while the two channels using `A`
emit none; and a channel declaring no terminator at all neither contributes
to the tally nor emits an override. -/
theorem c6_terminator_consensus (drv A B : String)
    (hA : A ≠ "") (hB : B ≠ "") (hAB : A ≠ B)
    (s1 s2 s3 : StreamData)
    (h1d : s1.asyn_driver = drv) (h2d : s2.asyn_driver = drv)
    (h3d : s3.asyn_driver = drv)
    (h1t : s1.terminator = some A) (h2t : s2.terminator = some A)
    (h3t : s3.terminator = some B) :
    commonTerminator (fun sd => sd.terminator) drv [s1, s2, s3] = some A ∧
    overridePiece "Terminator" (some A) s3.terminator =
      "\tTerminator = " ++ B ++ ";\n" ∧
    overridePiece "Terminator" (some A) s1.terminator = "" ∧
    overridePiece "Terminator" (some A) s2.terminator = "" ∧
    (∀ (s0 : StreamData) (l : List StreamData)
        (get : StreamData → Option String), get s0 = none →
      tally get drv (l ++ [s0]) = tally get drv l) ∧
    (∀ (s0 : StreamData) (ct cit cot : Option String),
      s0.terminator = none → s0.in_terminator = none →
      s0.out_terminator = none →
      get_terminator_string ct cit cot s0 = "") := by
  have hBA : B ≠ A := fun h => hAB h.symm
  refine ⟨?_, ?_, ?_, ?_, ?_, ?_⟩
  · simp only [commonTerminator, tally, List.foldl, h1d, h2d, h3d,
      h1t, h2t, h3t]
    simp [bump, firstMaxKey, maxGo, hA, hB, hAB, hBA]
  · rw [h3t]
    show (if B ≠ "" then
        (if B ≠ A then "\t" ++ "Terminator" ++ " = " ++ B ++ ";\n" else "")
      else "") = "\tTerminator = " ++ B ++ ";\n"
    rw [if_pos hB, if_pos hBA]
    rfl
  · rw [h1t]
    simp [overridePiece, hA]
  · rw [h2t]
    simp [overridePiece, hA]
  · intro s0 l get hget
    simp only [tally, List.foldl_append, List.foldl, hget]
    split <;> rfl
  · intro s0 ct cit cot ht hit hot
    simp [get_terminator_string, overridePiece, ht, hit, hot]

/-- The three concrete channels of the C6 witness scenario. -/
def c6sd1 : StreamData :=
  { name := "ch1", asyn_driver := "D", data_operation := "r",
    terminator := some "CR", in_terminator := none, out_terminator := none,
    out_command := some "Q1", in_match_str := some "%f", intr := false,
    with_init := false }

/-- Second channel, also using terminator `CR`. -/
def c6sd2 : StreamData :=
  { c6sd1 with name := "ch2", out_command := some "Q2" }

/-- Third channel, using terminator `LF`. -/
def c6sd3 : StreamData :=
  { c6sd1 with
      name := "ch3"
      terminator := some "LF"
      out_command := some "Q3" }

/-- Witness for `c6_terminator_consensus` at concrete channels and
terminator strings `CR`, `CR`, `LF`. -/
theorem c6_terminator_consensus_witness :
    commonTerminator (fun sd => sd.terminator) "D" [c6sd1, c6sd2, c6sd3] =
      some "CR" ∧
    overridePiece "Terminator" (some "CR") c6sd3.terminator =
      "\tTerminator = " ++ "LF" ++ ";\n" ∧
    overridePiece "Terminator" (some "CR") c6sd1.terminator = "" :=
  have h := c6_terminator_consensus "D" "CR" "LF" (by decide) (by decide)
    (by decide) c6sd1 c6sd2 c6sd3 rfl rfl rfl rfl rfl rfl
  ⟨h.1, h.2.1, h.2.2.1⟩

/-- C8 (amended): records that share the (interface, channel name,
direction) triple are deduplicated in the `StreamDataRegistered` registry —
registering a key already present leaves the registry unchanged — but the
emitted protocol-script file gets one protocol entry per Signal Record, not
per registered channel: the renderer iterates the per-driver record list,
each of whose elements holds the row's own fresh `StreamData`, so duplicate
triples repeat the block. -/
theorem c8_proto_entry_per_record (reg : StreamDataReg) (sd : StreamData)
    (hdup : (sdLookup reg sd.key).isSome = true) :
    registerStreamData reg sd = reg ∧
    (∀ (reg2 : StreamDataReg) (ct cit cot : Option String)
        (pvs : List StreamData),
      (protoEntries reg2 ct cit cot pvs).length = pvs.length) := by
  constructor
  · unfold registerStreamData
    rw [if_neg (by
      intro hx
      rw [Option.isNone_iff_eq_none] at hx
      rw [hx] at hdup
      exact Bool.noConfusion hdup)]
  · intro reg2 ct cit cot pvs
    simp [protoEntries]

/-- The duplicated channel of the C8 counterexample. -/
def c8sd : StreamData :=
  { name := "Temp", asyn_driver := "DEV", data_operation := "r",
    terminator := none, in_terminator := none, out_terminator := none,
    out_command := some "GETT", in_match_str := some "%f", intr := false,
    with_init := false }

/-- C8 counterexample: two rows with the same (interface, channel,
direction) triple leave one entry in the registry but produce two protocol
entries in the rendered protocol lines — the records do not share one
entry in the emitted file. -/
theorem c8_counterexample :
    (processStreamRows [c8sd, c8sd]).1.length = 1 ∧
    (protoEntries (processStreamRows [c8sd, c8sd]).1 none none none
        (processStreamRows [c8sd, c8sd]).2).length = 2 ∧
    (2 : Nat) ≠ 1 := by
  exact ⟨rfl, rfl, by decide⟩

/-- Witness for `c8_proto_entry_per_record` at a concrete registry holding
the duplicated channel's key. -/
theorem c8_proto_entry_per_record_witness :
    registerStreamData [(StreamData.key c8sd, c8sd)] c8sd =
      [(StreamData.key c8sd, c8sd)] :=
  (c8_proto_entry_per_record [(StreamData.key c8sd, c8sd)] c8sd rfl).1

end Stream

